import Mathlib

/-!
Shallow embedding of the content-aggregation backend (src/backend/main.py)
of the AstraMesh QVic Reforge Chalice repository, together with proofs of
the behavioural claims stated about it.

Modelling conventions:
* Python `datetime` values are modelled as integers (`Int`); only their
  linear order is ever used by the program.
* Network interactions are modelled by explicit response parameters: a
  fetcher receives the function that performs its HTTP/API call, and the
  environment (`World`) supplies what each call returns.  An exception
  raised by a call (network error, malformed JSON payload, API error) is
  the `exn` constructor of the corresponding result type.
* Every Python function modelled here catches `Exception` around its body
  and always returns; accordingly the Lean functions are total.  The web
  fetcher's handler falls through to `return items`, so an exception raised
  in the middle of its conversion loop returns the items accumulated before
  the failure; entries and abstracts whose conversion raises are explicit
  constructors (`Topic.dictRaising`, `AbstractVal.raising`).
* `processing_time` is a wall-clock float in the source; it is modelled as
  an environment-supplied integer, since no claim depends on its value.
-/

/-- Values that occur in a `ContentItem.metadata` mapping: strings,
integers, or a metrics sub-mapping (Twitter `public_metrics`). -/
inductive MetaVal where
  | s (v : String)
  | i (v : Int)
  | m (v : List (String × Int))
deriving DecidableEq

/-- Model of the pydantic `ContentItem` (main.py lines 50-57): one
normalized unit of aggregated content. -/
structure ContentItem where
  title : String
  content : String
  source : String
  url : Option String := none
  timestamp : Int
  metadata : List (String × MetaVal) := []
deriving DecidableEq

/-- Model of the pydantic `AggregationRequest` (main.py lines 43-48), with
the declared field defaults. -/
structure AggregationRequest where
  query : String
  sources : List String := ["web", "twitter"]
  max_results : Int := 10
  summarize : Bool := true
deriving DecidableEq

/-- Model of the pydantic `AggregationResult` (main.py lines 59-66). -/
structure AggregationResult where
  query : String
  items : List ContentItem
  summary : Option String := none
  total_items : Nat
  sources_used : List String
  processing_time : Int
deriving DecidableEq

/-- One entry of the DuckDuckGo `RelatedTopics` array: a well-behaved JSON
object (with optional string values under the keys `Text` and `FirstURL`),
an object whose `"Text"` key is present but whose conversion raises — e.g.
a `"FirstURL"` key bound to `null`, so `topic.get("FirstURL", "")` returns
`None` and `.split` raises, or a non-string `"Text"` value the ContentItem
validation rejects — or a non-object entry (e.g. a nested topic group),
which the code skips. -/
inductive Topic where
  | dict (text : Option String) (firstURL : Option String)
  | dictRaising
  | nonDict
deriving DecidableEq

/-- The `"Abstract"` value of a DuckDuckGo response as the code consumes
it: `absent` when the key is missing, `str s` a string value (appended
only when truthy, i.e. non-empty), and `raising` a truthy non-string value
whose ContentItem conversion raises. -/
inductive AbstractVal where
  | absent
  | str (s : String)
  | raising
deriving DecidableEq

/-- Body of a DuckDuckGo instant-answer response, restricted to the fields
the code reads. -/
structure DuckResponse where
  relatedTopics : List Topic := []
  abstract : AbstractVal := AbstractVal.absent
  heading : Option String := none
  abstractURL : Option String := none
deriving DecidableEq

/-- Outcome of the `httpx` GET performed by the web fetcher: either an
exception (network error, timeout, malformed JSON body, non-object body),
or a status code together with a parsed body. -/
inductive WebResult where
  | exn
  | ok (status : Nat) (data : DuckResponse)
deriving DecidableEq

/-- One tweet as returned by `search_recent_tweets`, restricted to the
fields the code reads. -/
structure Tweet where
  id : Int
  text : String
  author_id : Int
  created_at : Option Int
  public_metrics : List (String × Int)
deriving DecidableEq

/-- Outcome of the `search_recent_tweets` call: an exception, or a response
whose `data` attribute is either `None` or a list of tweets. -/
inductive TwitterResult where
  | exn
  | ok (tweets : Option (List Tweet))
deriving DecidableEq

/-- Python list slice `l[:n]`: the first `n` elements when `n ≥ 0`,
and all but the last `-n` elements when `n < 0` (clamped at the empty
list). -/
def pySliceTo (n : Int) (l : List α) : List α :=
  if 0 ≤ n then l.take n.toNat else l.take ((l.length : Int) + n).toNat

/-- Helper for `pyTitle`: the Boolean argument records whether the previous
character was alphabetic. -/
def pyTitleAux : Bool → List Char → List Char
  | _, [] => []
  | prevAlpha, c :: cs =>
    if c.isAlpha then
      (if prevAlpha then c.toLower else c.toUpper) :: pyTitleAux true cs
    else
      c :: pyTitleAux false cs

/-- Model of Python `str.title()`: the first letter of each maximal
alphabetic run is uppercased and the rest lowercased. -/
def pyTitle (s : String) : String := String.mk (pyTitleAux false s.data)

/-- The URL the web fetcher queries (main.py line 137). -/
def search_url (query : String) : String :=
  "https://api.duckduckgo.com/?q=" ++ query ++ "&format=json&no_html=1&skip_disambig=1"

/-- Conversion of one non-raising `RelatedTopics` entry into a
`ContentItem` (main.py lines 144-153): object entries carrying a `Text`
key produce an item, non-object entries and objects without `Text` are
skipped (a `dictRaising` entry never reaches this conversion; the loop
aborts on it). -/
def webTopicItem (now : Int) (t : Topic) : Option ContentItem :=
  match t with
  | Topic.dict (some text) firstURL =>
      some { title := pyTitle ((((firstURL.getD "").splitOn "/").getLastD "").replace "-" " "),
             content := text,
             source := "web",
             url := firstURL,
             timestamp := now,
             metadata := [("search_engine", MetaVal.s "duckduckgo")] }
  | _ => none

/-- The `for topic in ...` loop of the web fetcher (main.py lines
144-153), with exception propagation: the result is the accumulated item
list together with a flag telling whether an entry's conversion raised.
When it did, the loop aborted there, the remaining entries were never
visited, and control jumped to the `except` handler. -/
def webTopicsLoop (now : Int) : List ContentItem → List Topic → List ContentItem × Bool
  | acc, [] => (acc, false)
  | acc, Topic.dictRaising :: _ => (acc, true)
  | acc, t :: ts =>
    match webTopicItem now t with
    | some item => webTopicsLoop now (acc ++ [item]) ts
    | none => webTopicsLoop now acc ts

/-- Model of `aggregate_web_content` (main.py lines 130-169).  `http_get`
is the HTTP client; the fetcher queries `search_url query` with it.  On an
exception at the request/parse stage or a non-200 status it returns the
empty list; otherwise it runs the conversion loop over the first
`max_results` related topics and then, if no conversion raised and the
abstract is truthy, tries to append one abstract item (uncapped).  The
`except Exception` handler (lines 166-169) logs and falls through to
`return items`, so a conversion that raises mid-way returns exactly the
items accumulated before the failure. -/
def aggregate_web_content (query : String) (max_results : Int)
    (http_get : String → WebResult) (now : Int) : List ContentItem :=
  match http_get (search_url query) with
  | WebResult.exn => []
  | WebResult.ok status data =>
    if status = 200 then
      let p := webTopicsLoop now [] (pySliceTo max_results data.relatedTopics)
      if p.2 then p.1
      else
        match data.abstract with
        | AbstractVal.str s =>
          if s ≠ "" then
            p.1 ++
              [{ title := data.heading.getD (pyTitle query),
                 content := s,
                 source := "web",
                 url := data.abstractURL,
                 timestamp := now,
                 metadata := [("type", MetaVal.s "abstract"),
                              ("search_engine", MetaVal.s "duckduckgo")] }]
          else p.1
        | AbstractVal.raising => p.1
        | AbstractVal.absent => p.1
    else []

/-- Conversion of one tweet into a `ContentItem` (main.py lines 188-200). -/
def tweetItem (now : Int) (t : Tweet) : ContentItem :=
  { title := "Tweet by " ++ toString t.author_id,
    content := t.text,
    source := "twitter",
    url := some ("https://twitter.com/i/status/" ++ toString t.id),
    timestamp := (t.created_at).getD now,
    metadata := [("tweet_id", MetaVal.i t.id), ("author_id", MetaVal.i t.author_id),
                 ("metrics", MetaVal.m t.public_metrics)] }

/-- Model of `aggregate_twitter_content` (main.py lines 171-205).
`twitter_client` is the module-level client handle (absent when no bearer
token was configured); `search` is the provider call, invoked with the
query and `min max_results 100` (the Twitter API limit, line 183).  On a
missing client, an exception, or a `None` data attribute the result is
empty; otherwise one item per returned tweet. -/
def aggregate_twitter_content (query : String) (max_results : Int)
    (twitter_client : Bool) (search : String → Int → TwitterResult) (now : Int) :
    List ContentItem :=
  if twitter_client = false then []
  else
    match search query (min max_results 100) with
    | TwitterResult.exn => []
    | TwitterResult.ok none => []
    | TwitterResult.ok (some tweets) => tweets.map (tweetItem now)

/-- The per-item block of the summarization prompt (main.py lines 214-217). -/
def item_block (item : ContentItem) : String :=
  "Source: " ++ item.source ++ "\nTitle: " ++ item.title ++ "\nContent: " ++ item.content

/-- The combined content embedded in the prompt: at most the first 10
items, joined by blank lines (main.py lines 214-217). -/
def combined_content (items : List ContentItem) : String :=
  String.intercalate "\n\n" ((items.take 10).map item_block)

/-- The single prompt built by `generate_summary` (main.py lines 220-231). -/
def summary_prompt (items : List ContentItem) (query : String) : String :=
  "\n        Please provide a comprehensive summary of the following content related to the query: \""
    ++ query
    ++ "\"\n        \n        Content:\n        "
    ++ combined_content items
    ++ "\n        \n        Summary should be:\n        - Concise but informative (2-3 paragraphs)\n        - Highlight key insights and trends\n        - Mention different perspectives if present\n        - Be objective and factual\n        "

/-- Model of `generate_summary` (main.py lines 207-241).  `openai_client`
is the module-level language-model handle; `llm` maps the prompt to the
model call's outcome, where `none` is a failed call (exception caught,
line 239-241) and `some s` a successful response text.  With no client or
no items the function returns `none` without invoking the model. -/
def generate_summary (items : List ContentItem) (query : String)
    (openai_client : Bool) (llm : String → Option String) : Option String :=
  if openai_client = false ∨ items = [] then none
  else llm (summary_prompt items query)

/-- The module-level service handles (main.py lines 39-40), set once at
startup: `true` means the client object exists. -/
structure Services where
  twitter_client : Bool
  openai_client : Bool
deriving DecidableEq

/-- Per-request external environment: what each outward call returns, how
each gathered task settles, and the wall clock. `webTaskExn` /
`twitterTaskExn` model a scheduled coroutine settling as an exception at
the `asyncio.gather(..., return_exceptions=True)` barrier (main.py lines
297-303). -/
structure World where
  duckduckgo : String → WebResult
  twitterSearch : String → Int → TwitterResult
  llm : String → Option String
  webTaskExn : Bool
  twitterTaskExn : Bool
  now : Int
  elapsed : Int

/-- Settled outcome of one gathered aggregation task: the fetcher's item
list, or an exception object. -/
inductive TaskOutcome where
  | items (l : List ContentItem)
  | failed
deriving DecidableEq

/-- Descending-timestamp order used by `all_items.sort(key=lambda x:
x.timestamp, reverse=True)` (main.py line 306). -/
def newestFirst (a b : ContentItem) : Prop := b.timestamp ≤ a.timestamp

instance : DecidableRel newestFirst :=
  fun a b => inferInstanceAs (Decidable (b.timestamp ≤ a.timestamp))

instance : IsTotal ContentItem newestFirst :=
  ⟨fun a b => le_total b.timestamp a.timestamp⟩

instance : IsTrans ContentItem newestFirst :=
  ⟨fun _ _ _ hab hbc => le_trans hbc hab⟩

/-- The task list scheduled by `aggregate_content` (main.py lines 285-293):
one task for `"web"` when requested, one for `"twitter"` when requested and
the client exists, in that order.  Each scheduled task settles either to
the fetcher's item list or, when the coroutine itself raised, to `failed`
(the exception object `asyncio.gather` hands back). -/
def scheduled_tasks (request : AggregationRequest) (svc : Services) (w : World) :
    List TaskOutcome :=
  (if "web" ∈ request.sources then
    [if w.webTaskExn then TaskOutcome.failed
     else TaskOutcome.items
       (aggregate_web_content request.query request.max_results w.duckduckgo w.now)]
   else []) ++
  (if "twitter" ∈ request.sources ∧ svc.twitter_client = true then
    [if w.twitterTaskExn then TaskOutcome.failed
     else TaskOutcome.items
       (aggregate_twitter_content request.query request.max_results
          svc.twitter_client w.twitterSearch w.now)]
   else [])

/-- The merged `all_items` list of `aggregate_content` (main.py lines
280, 296-303): list outcomes of the gathered tasks are concatenated in
task order, exception outcomes are logged and contribute nothing. -/
def merged_items (request : AggregationRequest) (svc : Services) (w : World) :
    List ContentItem :=
  (scheduled_tasks request svc w).foldl
    (fun acc t => match t with
      | TaskOutcome.items l => acc ++ l
      | TaskOutcome.failed => acc) []

/-- Model of the `/aggregate` handler `aggregate_content` (main.py lines
276-326).  `sources_used` records exactly the scheduled source tags (lines
289, 293).  The merged list is sorted newest-first (line 306; Python's sort
is stable and `List.insertionSort` has the same stable behaviour), a
summary is generated only when requested and the merged list is non-empty
(lines 308-311), and `total_items` is the merged list's length (line
319). -/
def aggregate_content (request : AggregationRequest) (svc : Services) (w : World) :
    AggregationResult :=
  let sources_used : List String :=
    (if "web" ∈ request.sources then ["web"] else []) ++
    (if "twitter" ∈ request.sources ∧ svc.twitter_client = true then ["twitter"] else [])
  let sorted := List.insertionSort newestFirst (merged_items request svc w)
  let summary : Option String :=
    if request.summarize = true ∧ sorted ≠ [] then
      generate_summary sorted request.query svc.openai_client w.llm
    else none
  { query := request.query,
    items := sorted,
    summary := summary,
    total_items := sorted.length,
    sources_used := sources_used,
    processing_time := w.elapsed }

/-- One JSON value of a request body, restricted to the shapes that matter
for the declared schema: strings, integers, booleans, arrays, null. -/
inductive JVal where
  | jstr (s : String)
  | jint (n : Int)
  | jbool (b : Bool)
  | jlist (l : List JVal)
  | jnull

/-- A POST /aggregate body: each schema field is either absent or bound to
a JSON value. -/
structure RawBody where
  query : Option JVal := none
  sources : Option JVal := none
  max_results : Option JVal := none
  summarize : Option JVal := none

/-- Validation of one JSON value against the declared type `str`. -/
def jStr : JVal → Except Nat String
  | JVal.jstr s => Except.ok s
  | _ => Except.error 422

/-- Models the FastAPI/pydantic validation of a POST /aggregate body
against the `AggregationRequest` schema (main.py lines 43-48): `query` is a
required `str` with no further constraint declared (in particular no
`min_length`, so the empty string passes); `sources` is a `List[str]`
defaulting to `["web", "twitter"]`; `max_results` is an `int` defaulting to
`10` with no bound declared (no `gt=0`); `summarize` is a `bool` defaulting
to `True`.  The error value is FastAPI's 422 validation-failure status.
Pydantic's lax numeric-string coercions are not modelled; no claim depends
on them. -/
def validate_body (b : RawBody) : Except Nat AggregationRequest := do
  let q ← match b.query with
    | none => (Except.error 422 : Except Nat String)
    | some v => jStr v
  let srcs ← match b.sources with
    | none => (Except.ok ["web", "twitter"] : Except Nat (List String))
    | some (JVal.jlist l) => l.mapM jStr
    | some _ => Except.error 422
  let mr ← match b.max_results with
    | none => (Except.ok (10 : Int) : Except Nat Int)
    | some (JVal.jint n) => Except.ok n
    | some _ => Except.error 422
  let sm ← match b.summarize with
    | none => (Except.ok true : Except Nat Bool)
    | some (JVal.jbool v) => Except.ok v
    | some _ => Except.error 422
  Except.ok { query := q, sources := srcs, max_results := mr, summarize := sm }

/-- The full POST /aggregate boundary: the body is validated against the
schema and, only on success, the handler `aggregate_content` runs.  A
validation failure is answered with 422 and the Orchestrator is not
invoked. -/
def post_aggregate (b : RawBody) (svc : Services) (w : World) :
    Except Nat AggregationResult :=
  (validate_body b).map (fun request => aggregate_content request svc w)

/-- Module-level mutable state of main.py (lines 39-41): the two client
handles and the `aggregation_tasks` list, which is initialized to `[]` and
never written anywhere in the module. -/
structure SysState where
  twitter_client : Bool
  openai_client : Bool
  aggregation_tasks : List Unit

/-- The state at import time: no clients, empty task list (main.py lines
39-41). -/
def initState : SysState :=
  { twitter_client := false, openai_client := false, aggregation_tasks := [] }

/-- Model of `initialize_services` (main.py lines 75-101): each client is
created exactly when its credential is present in the environment,
otherwise the handle keeps its previous value. The task list is not
touched. -/
def init_services (s : SysState) (twitterTok openaiTok : Bool) : SysState :=
  { s with
    twitter_client := if twitterTok then true else s.twitter_client,
    openai_client := if openaiTok then true else s.openai_client }

/-- The operations that can run against the module state: the startup hook
and the four HTTP routes.  `aggregateCall` carries the validated request
and the request's external world. -/
inductive Op where
  | startup (twitterTok openaiTok : Bool)
  | aggregateCall (request : AggregationRequest) (w : World)
  | statusCall
  | healthCall
  | rootCall

/-- State transition of each operation.  Only `initialize_services`
assigns any module-level global; every route handler (including
`aggregate_content`, whose model above is a pure function of the state and
the world) reads the globals and writes none of them. -/
def step (s : SysState) : Op → SysState
  | Op.startup t o => init_services s t o
  | Op.aggregateCall _ _ => s
  | Op.statusCall => s
  | Op.healthCall => s
  | Op.rootCall => s

/-- Run a sequence of operations from the import-time state. -/
def run (ops : List Op) : SysState := ops.foldl step initState

/-- Response of GET /status (main.py lines 328-340). -/
structure StatusResponse where
  service : String
  status : String
  timestamp : Int
  active_tasks : Nat
  twitter : Bool
  openai : Bool
deriving DecidableEq

/-- Model of `get_status` (main.py lines 328-340): `active_tasks` is the
length of the module-level `aggregation_tasks` list. -/
def get_status (s : SysState) (now : Int) : StatusResponse :=
  { service := "AstraMesh QVic Reforge Chalice",
    status := "running",
    timestamp := now,
    active_tasks := s.aggregation_tasks.length,
    twitter := s.twitter_client,
    openai := s.openai_client }

/-! ## Helper lemmas -/

/-- The insertion sort used in `aggregate_content` yields a list whose
adjacent pairs are in descending timestamp order. -/
theorem insertionSort_chain_newestFirst (l : List ContentItem) :
    List.Chain' (fun a b : ContentItem => b.timestamp ≤ a.timestamp)
      (List.insertionSort newestFirst l) :=
  List.Pairwise.chain' (List.sorted_insertionSort newestFirst l)

/-- Sorting returns the empty list exactly on empty input. -/
theorem insertionSort_eq_nil_iff (l : List ContentItem) :
    List.insertionSort newestFirst l = [] ↔ l = [] := by
  constructor
  · intro h
    have hlen := List.length_insertionSort newestFirst l
    rw [h] at hlen
    exact List.length_eq_zero.mp hlen.symm
  · intro h
    rw [h]
    rfl

/-- No single operation writes the module-level `aggregation_tasks` list. -/
theorem step_preserves_tasks (s : SysState) (op : Op) :
    (step s op).aggregation_tasks = s.aggregation_tasks := by
  cases op <;> rfl

/-- No sequence of operations writes the `aggregation_tasks` list. -/
theorem foldl_step_preserves_tasks (l : List Op) : ∀ s : SysState,
    (l.foldl step s).aggregation_tasks = s.aggregation_tasks := by
  induction l with
  | nil => intro s; rfl
  | cons op t ih =>
    intro s
    rw [List.foldl_cons, ih, step_preserves_tasks]

/-! ## Claims -/

/-- C1: for every aggregation request, the `items` sequence of the returned
AggregationResult is sorted by timestamp descending: every adjacent pair
(a, b) satisfies a.timestamp ≥ b.timestamp. -/
theorem aggregate_items_sorted_newest_first (request : AggregationRequest)
    (svc : Services) (w : World) :
    List.Chain' (fun a b : ContentItem => b.timestamp ≤ a.timestamp)
      (aggregate_content request svc w).items :=
  insertionSort_chain_newestFirst (merged_items request svc w)

/-- C9: for every aggregation request, `total_items` equals the length of
the returned `items` sequence. -/
theorem total_items_matches_items_length (request : AggregationRequest)
    (svc : Services) (w : World) :
    (aggregate_content request svc w).total_items =
      (aggregate_content request svc w).items.length := rfl

/-- Running the conversion loop over a raising-free prefix followed by a
raising entry accumulates exactly the prefix's converted items, abandons
the rest, and reports the exception. -/
theorem webTopicsLoop_append_raising (now : Int) (post : List Topic) :
    ∀ (pre : List Topic) (acc : List ContentItem), Topic.dictRaising ∉ pre →
      webTopicsLoop now acc (pre ++ Topic.dictRaising :: post)
        = (acc ++ pre.filterMap (webTopicItem now), true) := by
  intro pre
  induction pre with
  | nil => intro acc _; simp [webTopicsLoop]
  | cons t ts ih =>
    intro acc h
    have ht : t ≠ Topic.dictRaising := fun hh => h (hh ▸ List.mem_cons_self t ts)
    have hts : Topic.dictRaising ∉ ts := fun hh => h (List.mem_cons_of_mem t hh)
    cases t with
    | dict otext ourl =>
      cases otext with
      | some s => simp [webTopicsLoop, webTopicItem, ih _ hts]
      | none => simp [webTopicsLoop, webTopicItem, ih _ hts]
    | dictRaising => exact absurd rfl ht
    | nonDict => simp [webTopicsLoop, webTopicItem, ih _ hts]

/-- C4 (amended): a Source Fetcher never raises to its caller (the model
is total precisely because the source catches `Exception` around its whole
body).  A failure before any item is converted yields the empty sequence —
the web fetcher under a request/parse exception, the twitter fetcher under
an API exception, and the twitter fetcher with no configured client.  But
a conversion that raises mid-loop makes the web fetcher return the items
accumulated before the failure: on a 200 response whose topics are a
raising-free prefix followed by a raising entry (with `max_results`
covering the whole list), the result is exactly the converted prefix,
which need not be empty. -/
theorem fetchers_internal_failure_behavior (q : String) (m : Int) (now : Int)
    (tc : Bool) (search : String → Int → TwitterResult)
    (pre post : List Topic) (ab : AbstractVal) (hd au : Option String)
    (hpre : Topic.dictRaising ∉ pre) :
    aggregate_web_content q m (fun _ => WebResult.exn) now = [] ∧
    aggregate_twitter_content q m tc (fun _ _ => TwitterResult.exn) now = [] ∧
    aggregate_twitter_content q m false search now = [] ∧
    aggregate_web_content q ((pre.length : Int) + 1 + (post.length : Int))
        (fun _ => WebResult.ok 200
          { relatedTopics := pre ++ Topic.dictRaising :: post,
            abstract := ab, heading := hd, abstractURL := au }) now
      = pre.filterMap (webTopicItem now) := by
  refine ⟨rfl, ?_, rfl, ?_⟩
  · cases tc <;> rfl
  · have hslice : pySliceTo ((pre.length : Int) + 1 + (post.length : Int))
        (pre ++ Topic.dictRaising :: post) = pre ++ Topic.dictRaising :: post := by
      unfold pySliceTo
      rw [if_pos (by omega)]
      apply List.take_of_length_le
      simp
      omega
    simp [aggregate_web_content, hslice,
          webTopicsLoop_append_raising now post pre [] hpre]

/-- Concrete witness data for the amended C4: one well-formed topic before
a raising entry. -/
def preTopics : List Topic := [Topic.dict (some "good entry") (some "https://x/a-b")]

/-- Witness for the amended C4 at concrete inputs, covering each failure
mode: request-stage exceptions and a missing client give `[]`, and a
raising entry after one well-formed topic gives that topic's converted
item. -/
theorem fetchers_internal_failure_behavior_witness :
    aggregate_web_content "q" 3 (fun _ => WebResult.exn) 0 = [] ∧
    aggregate_twitter_content "q" 3 true (fun _ _ => TwitterResult.exn) 0 = [] ∧
    aggregate_twitter_content "q" 3 false (fun _ _ => TwitterResult.ok none) 0 = [] ∧
    aggregate_web_content "q" ((preTopics.length : Int) + 1 + ((([] : List Topic).length : Int)))
        (fun _ => WebResult.ok 200
          { relatedTopics := preTopics ++ Topic.dictRaising :: ([] : List Topic),
            abstract := AbstractVal.absent, heading := none, abstractURL := none }) 0
      = preTopics.filterMap (webTopicItem 0) :=
  fetchers_internal_failure_behavior "q" 3 0 true (fun _ _ => TwitterResult.ok none)
    preTopics [] AbstractVal.absent none none (by decide)

/-- A 200 response whose second topic raises during conversion, after the
first was already appended. -/
def duckPartialResponse : DuckResponse :=
  { relatedTopics := [Topic.dict (some "well-formed entry") (some "https://x/a-b"),
                      Topic.dictRaising],
    abstract := AbstractVal.absent,
    heading := none,
    abstractURL := none }

/-- C4 counterexample: an internal failure (a malformed second
`RelatedTopics` entry raising during conversion) does not result in an
empty sequence — the web fetcher returns the one item accumulated before
the failure, because the `except` handler falls through to
`return items`. -/
theorem web_fetcher_partial_items_on_failure :
    (aggregate_web_content "q" 5 (fun _ => WebResult.ok 200 duckPartialResponse) 0).length
      = 1 := rfl

/-- A DuckDuckGo response holding one usable related topic and a non-empty
abstract. -/
def duckBugResponse : DuckResponse :=
  { relatedTopics := [Topic.dict (some "Rust is a systems programming language")
      (some "https://duckduckgo.com/Rust_language")],
    abstract := AbstractVal.str "Rust is a language empowering everyone.",
    heading := some "Rust",
    abstractURL := some "https://duckduckgo.com/Rust" }

/-- C3: refuted on the web fetcher.  With `max_results = 1` and a provider
response holding one related topic and a non-empty abstract, the fetcher
returns 2 items: the `[:max_results]` slice caps only the related topics,
and the abstract item is appended afterwards without any cap. -/
theorem web_fetcher_exceeds_max_results :
    (aggregate_web_content "rust" 1 (fun _ => WebResult.ok 200 duckBugResponse) 0).length
      = 2 := rfl

/-- C10: in every state reachable by any sequence of operations from the
import-time state, the module-level `aggregation_tasks` list is still
empty, and GET /status therefore reports `active_tasks = 0`. -/
theorem active_tasks_always_zero (ops : List Op) (now : Int) :
    (run ops).aggregation_tasks = [] ∧
    (get_status (run ops) now).active_tasks = 0 := by
  have h : (run ops).aggregation_tasks = [] := foldl_step_preserves_tasks ops initState
  exact ⟨h, by simp [get_status, h]⟩

/-- C5: for every aggregation request, the `summary` field is exactly the
language model's response to the built prompt when summarization was
requested, the merged items are non-empty and a language-model client is
configured, and absent (`none`) otherwise.  In particular `summary` is
absent when `summarize` is false (regardless of item count), when the
merged item sequence is empty (in which case the right-hand side does not
consult `w.llm` at all: no language-model call is made), when no client is
configured, and when the call fails (`w.llm` returns `none`). -/
theorem summary_presence_characterization (request : AggregationRequest)
    (svc : Services) (w : World) :
    (aggregate_content request svc w).summary =
      (if request.summarize = true ∧ merged_items request svc w ≠ [] ∧
          svc.openai_client = true then
        w.llm (summary_prompt
          (List.insertionSort newestFirst (merged_items request svc w)) request.query)
      else none) := by
  have hs : (aggregate_content request svc w).summary =
      (if request.summarize = true ∧
          List.insertionSort newestFirst (merged_items request svc w) ≠ [] then
        generate_summary (List.insertionSort newestFirst (merged_items request svc w))
          request.query svc.openai_client w.llm
      else none) := rfl
  rw [hs]
  by_cases hz : request.summarize = true
  · by_cases hm : merged_items request svc w = []
    · simp [hm, generate_summary]
    · have hsne : List.insertionSort newestFirst (merged_items request svc w) ≠ [] :=
        fun h => hm ((insertionSort_eq_nil_iff _).mp h)
      by_cases ho : svc.openai_client = true
      · simp [hz, hm, hsne, ho, generate_summary]
      · simp [hz, hm, hsne, ho, generate_summary]
  · simp [hz]

/-- C6: when no available fetcher is scheduled (the request's sources hold
no enabled, configured provider tag), the aggregation still returns a
result whose `sources_used` and `items` are empty and whose `total_items`
is 0. -/
theorem no_available_sources_empty_result (request : AggregationRequest)
    (svc : Services) (w : World)
    (hweb : "web" ∉ request.sources)
    (htw : ¬("twitter" ∈ request.sources ∧ svc.twitter_client = true)) :
    (aggregate_content request svc w).sources_used = [] ∧
    (aggregate_content request svc w).items = [] ∧
    (aggregate_content request svc w).total_items = 0 := by
  have htasks : scheduled_tasks request svc w = [] := by
    simp [scheduled_tasks, hweb, htw]
  have hmerged : merged_items request svc w = [] := by
    simp [merged_items, htasks]
  refine ⟨?_, ?_, ?_⟩ <;> simp [aggregate_content, hweb, htw, hmerged]

/-- A request naming only an unknown tag and the credential-gated twitter
tag. -/
def reqOnlyUnavailable : AggregationRequest :=
  { query := "q", sources := ["reddit", "twitter"], max_results := 10, summarize := true }

/-- Services with neither client configured. -/
def svcNone : Services := { twitter_client := false, openai_client := false }

/-- A benign world: every outward call fails, no task raises. -/
def worldBase : World :=
  { duckduckgo := fun _ => WebResult.exn,
    twitterSearch := fun _ _ => TwitterResult.exn,
    llm := fun _ => none,
    webTaskExn := false,
    twitterTaskExn := false,
    now := 0,
    elapsed := 0 }

/-- Witness for C6 at a concrete request whose sources are an unknown tag
and the disabled twitter provider. -/
theorem no_available_sources_empty_result_witness :
    (aggregate_content reqOnlyUnavailable svcNone worldBase).sources_used = [] ∧
    (aggregate_content reqOnlyUnavailable svcNone worldBase).items = [] ∧
    (aggregate_content reqOnlyUnavailable svcNone worldBase).total_items = 0 :=
  no_available_sources_empty_result reqOnlyUnavailable svcNone worldBase
    (by decide) (by decide)

/-- C2: when both fetchers are scheduled and exactly one of the gathered
tasks settles as an exception, the aggregation still completes: the failed
task contributes zero items, the result's items are exactly (up to the
sort's reordering) the successful fetcher's items, and `sources_used`
still lists both scheduled tags. -/
theorem partial_failure_isolated (request : AggregationRequest)
    (svc : Services) (w : World)
    (hweb : "web" ∈ request.sources) (htw : "twitter" ∈ request.sources)
    (hclient : svc.twitter_client = true)
    (hne : w.webTaskExn ≠ w.twitterTaskExn) :
    (aggregate_content request svc w).sources_used = ["web", "twitter"] ∧
    (aggregate_content request svc w).items.Perm
      (if w.webTaskExn = true then
        aggregate_twitter_content request.query request.max_results svc.twitter_client
          w.twitterSearch w.now
      else
        aggregate_web_content request.query request.max_results w.duckduckgo w.now) := by
  have hitems : (aggregate_content request svc w).items
      = List.insertionSort newestFirst (merged_items request svc w) := rfl
  constructor
  · simp [aggregate_content, hweb, htw, hclient]
  · cases hwx : w.webTaskExn <;> cases htx : w.twitterTaskExn
    · rw [hwx, htx] at hne
      exact absurd rfl hne
    · have hm : merged_items request svc w =
          aggregate_web_content request.query request.max_results w.duckduckgo w.now := by
        simp [merged_items, scheduled_tasks, hweb, htw, hclient, hwx, htx]
      rw [hitems, hm]
      simpa using List.perm_insertionSort newestFirst _
    · have hm : merged_items request svc w =
          aggregate_twitter_content request.query request.max_results svc.twitter_client
            w.twitterSearch w.now := by
        simp [merged_items, scheduled_tasks, hweb, htw, hclient, hwx, htx]
      rw [hitems, hm]
      simpa using List.perm_insertionSort newestFirst _
    · rw [hwx, htx] at hne
      exact absurd rfl hne

/-- One concrete tweet. -/
def tweetW : Tweet :=
  { id := 7, text := "hello", author_id := 42, created_at := some 5,
    public_metrics := [("like_count", 3)] }

/-- A request naming both providers. -/
def reqBoth : AggregationRequest :=
  { query := "q", sources := ["web", "twitter"], max_results := 5, summarize := false }

/-- Services with only the twitter client configured. -/
def svcTwitter : Services := { twitter_client := true, openai_client := false }

/-- A world where the gathered web task settles as an exception while the
twitter task succeeds with one tweet. -/
def worldWebFails : World :=
  { duckduckgo := fun _ => WebResult.exn,
    twitterSearch := fun _ _ => TwitterResult.ok (some [tweetW]),
    llm := fun _ => none,
    webTaskExn := true,
    twitterTaskExn := false,
    now := 0,
    elapsed := 0 }

/-- Witness for C2 at a concrete request where the web task raises and the
twitter task succeeds. -/
theorem partial_failure_isolated_witness :
    (aggregate_content reqBoth svcTwitter worldWebFails).sources_used = ["web", "twitter"] ∧
    (aggregate_content reqBoth svcTwitter worldWebFails).items.Perm
      (if worldWebFails.webTaskExn = true then
        aggregate_twitter_content reqBoth.query reqBoth.max_results svcTwitter.twitter_client
          worldWebFails.twitterSearch worldWebFails.now
      else
        aggregate_web_content reqBoth.query reqBoth.max_results worldWebFails.duckduckgo
          worldWebFails.now) :=
  partial_failure_isolated reqBoth svcTwitter worldWebFails
    (by decide) (by decide) rfl (by decide)

/-- The `query` field of a body is missing or not a string (the shapes
pydantic rejects for a required `str` field). -/
def query_invalid (b : RawBody) : Prop :=
  match b.query with
  | none => True
  | some (JVal.jstr _) => False
  | some _ => True

/-- C7 (amended): a body whose `query` field is missing or not a string is
rejected by the boundary with 422 and the Orchestrator is not invoked; an
empty-string query, however, passes validation (the schema declares no
non-empty constraint). -/
theorem invalid_query_rejected (b : RawBody) (svc : Services) (w : World)
    (h : query_invalid b) :
    post_aggregate b svc w = Except.error 422 := by
  unfold post_aggregate validate_body
  cases hb : b.query with
  | none => rfl
  | some v =>
    cases v with
    | jstr s => simp [query_invalid, hb] at h
    | jint n => rfl
    | jbool bb => rfl
    | jlist l => rfl
    | jnull => rfl

/-- A body with no `query` field at all. -/
def bodyNoQuery : RawBody := { query := none }

/-- Witness for the amended C7: the concrete body missing `query` is
answered with 422. -/
theorem invalid_query_rejected_witness :
    post_aggregate bodyNoQuery svcNone worldBase = Except.error 422 :=
  invalid_query_rejected bodyNoQuery svcNone worldBase (by trivial)

/-- A body whose `query` is the empty string. -/
def bodyEmptyQuery : RawBody := { query := some (JVal.jstr "") }

/-- C7 counterexample: an empty-string `query` is not non-empty text, yet
the boundary accepts the body (all other fields defaulting) and the
Orchestrator is invoked on it. -/
theorem empty_query_passes_validation :
    validate_body bodyEmptyQuery =
      Except.ok { query := "", sources := ["web", "twitter"],
                  max_results := 10, summarize := true } ∧
    post_aggregate bodyEmptyQuery svcNone worldBase =
      Except.ok (aggregate_content
        { query := "", sources := ["web", "twitter"], max_results := 10, summarize := true }
        svcNone worldBase) :=
  ⟨rfl, rfl⟩

/-- A body supplying `query` and an explicit integer `max_results`. -/
def bodyMaxResults (n : Int) : RawBody :=
  { query := some (JVal.jstr "q"), max_results := some (JVal.jint n) }

/-- C8 counterexample: a request with `max_results = -1` is accepted by the
boundary, not rejected as a validation failure. -/
theorem nonpositive_max_results_accepted :
    validate_body (bodyMaxResults (-1)) =
      Except.ok { query := "q", sources := ["web", "twitter"],
                  max_results := -1, summarize := true } := rfl

/-- C8 (amended): the boundary applies no positivity check to
`max_results`: every integer value, zero and negative included, passes
validation and reaches the Orchestrator unchanged (the schema declares
only the default, 10). -/
theorem any_int_max_results_reaches_orchestrator (n : Int) (svc : Services) (w : World) :
    post_aggregate (bodyMaxResults n) svc w =
      Except.ok (aggregate_content
        { query := "q", sources := ["web", "twitter"], max_results := n, summarize := true }
        svc w) := rfl
